import Mathlib

set_option maxHeartbeats 1000000

/-!
Shallow embedding of `prepayment_automation.py`.

The script has two core functions:

* `load_prepayment_schedule` (lines 8–88): reads a CSV with two junk header
  rows, drops a trailing "Balance" summary row, renames the `Items`,
  `Invoice number` and `Invoice amount` columns, coerces the `Reference`
  column to a nullable integer column, detects month columns
  (`len == 6 and '-' in col and col.split('-')[0].isalpha() and
  col.split('-')[1].isdigit()`), coerces month cells to numbers with a
  0 default, and returns `(df, month_columns)` — or `(None, None)` on any
  error (file missing, empty file, no month columns, failed integer cast).

* `generate_accounting_entries` (lines 91–165): parses the target period
  with `strptime('%Y-%m')` (returning `[]` on failure), derives the
  `'%b-%y'` column name and the `'%d/%m/%Y'`-formatted last day of the
  month, returns `[]` if the column is absent, and otherwise emits a
  debit/credit pair per record whose amount magnitude exceeds `0.005`.

Tabular data is modelled as lists of rows of string cells; a blank cell is
the empty string (pandas' NaN, which fails numeric interpretation exactly
as the empty string does here).  Floating-point amounts are modelled as
rationals; Python's `round(x, 2)` is modelled as round-half-to-even on the
rational value, and an uncaught Python exception is modelled as `none`.
-/

/-- Python `str.isalpha` on a list of characters (ASCII letters suffice for
the inputs in the schedule headers). -/
def pyIsAlpha (cs : List Char) : Bool := !cs.isEmpty && cs.all Char.isAlpha

/-- Python `str.isdigit` on a list of characters. -/
def pyIsDigit (cs : List Char) : Bool := !cs.isEmpty && cs.all Char.isDigit

/-- Python `str.split(sep)` for a one-character separator: `"".split` gives
`['']`, and consecutive separators give empty segments. -/
def pySplit (sep : Char) : List Char → List (List Char)
  | [] => [[]]
  | c :: cs =>
    match pySplit sep cs with
    | [] => [[]]
    | g :: gs => if c = sep then [] :: g :: gs else (c :: g) :: gs

/-- Numeric value of a list of decimal digit characters. -/
def digitsVal (cs : List Char) : Nat := cs.foldl (fun a c => a * 10 + (c.toNat - 48)) 0

/-- Unsigned decimal literal: digits with an optional fractional part, at
least one digit overall (the shape accepted by `pandas.to_numeric` for the
cells this script feeds it). -/
def parseUnsigned (cs : List Char) : Option ℚ :=
  let intPart := cs.takeWhile Char.isDigit
  let rest := cs.dropWhile Char.isDigit
  match rest with
  | [] => if intPart.isEmpty then none else some (digitsVal intPart)
  | '.' :: frac =>
    if frac.all Char.isDigit && !(intPart.isEmpty && frac.isEmpty) then
      some ((digitsVal intPart : ℚ) + (digitsVal frac : ℚ) / (10 : ℚ) ^ frac.length)
    else none
  | _ => none

/-- `pandas.to_numeric(x, errors='coerce')` on one raw cell: `some` rational
on success, `none` (NaN) when the cell fails numeric interpretation —
including the blank cell `""`. -/
def parseNumeric (s : String) : Option ℚ :=
  match s.toList with
  | [] => none
  | '-' :: cs => (parseUnsigned cs).map (fun q => -q)
  | '+' :: cs => parseUnsigned cs
  | cs => parseUnsigned cs

/-- Month-column test of `load_prepayment_schedule` (line 52–55):
`len(col) == 6 and '-' in col and col.split('-')[0].isalpha() and
col.split('-')[1].isdigit()`. -/
def isMonthCol (col : String) : Bool :=
  let cs := col.toList
  let parts := pySplit '-' cs
  cs.length = 6 && cs.contains '-' && pyIsAlpha (parts.getD 0 []) && pyIsDigit (parts.getD 1 [])

/-- Modelled from the spec: a label of exactly 6 characters, a single '-'
separator, 3 alphabetic characters before it and 2 numeric characters after
it.  Stated for comparison with the code's `isMonthCol`. -/
def specMonthCol (col : String) : Bool :=
  let parts := pySplit '-' col.toList
  parts.length = 2 &&
    (parts.getD 0 []).length = 3 && (parts.getD 0 []).all Char.isAlpha &&
    (parts.getD 1 []).length = 2 && (parts.getD 1 []).all Char.isDigit

/-- Column renaming of `df.rename` (lines 32–36). -/
def renameCol (c : String) : String :=
  if c = "Items" then "Prepayment Item"
  else if c = "Invoice number" then "Reference"
  else if c = "Invoice amount" then "Total Amount"
  else c

/-- Value held in the normalized `Reference` field: a nullable integer
(`Int64` cell or `pd.NA`) when the source column exists, or the literal
string `'N/A'` the loader assigns when the column is absent (line 46). -/
inductive RefCell where
  | intVal (n : Int)
  | NA
  | strVal (s : String)
deriving Repr, DecidableEq

/-- One cell of the `to_numeric(errors='coerce')` + `astype('Int64')`
pipeline (lines 41–43): an unparseable cell becomes `NA`; a parsed value
with a fractional part makes the cast raise (`none`); a whole number is
stored as a true integer. -/
def refCellOfRaw (s : String) : Option RefCell :=
  match parseNumeric s with
  | none => some RefCell.NA
  | some q => if q.den = 1 then some (RefCell.intVal q.num) else none

/-- All-or-nothing map: the whole column fails if any cell fails, as the
`astype('Int64')` cast does. -/
def mapOpt (f : α → Option β) : List α → Option (List β)
  | [] => some []
  | a :: as =>
    match f a, mapOpt f as with
    | some b, some bs => some (b :: bs)
    | _, _ => none

/-- The raw input source: a missing file, or a table of rows of cells. -/
inductive Source where
  | missing
  | table (rows : List (List String))

/-- One normalized schedule row: the item label, the coerced reference and
the amount for every recognized month column. -/
structure ScheduleRecord where
  item : String
  reference : RefCell
  amounts : List (String × ℚ)
deriving Repr, DecidableEq

/-- Index of the first occurrence of a label in the header. -/
def colIdx (a : String) : List String → Nat
  | [] => 0
  | b :: bs => if b = a then 0 else colIdx a bs + 1

/-- `load_prepayment_schedule` (lines 8–88).  `read_csv(skiprows=2)` makes
the third row the header; a file that yields no rows at all raises
`EmptyDataError`; `df.iloc[-1, 0]` on a zero-row frame raises `IndexError`.
Every exception path of the Python function returns `(None, None)`,
modelled as `none` here; success returns the records and month columns. -/
def load_prepayment_schedule (src : Source) : Option (List ScheduleRecord × List String) :=
  match src with
  | .missing => none
  | .table rows =>
    match rows.drop 2 with
    | [] => none
    | header :: data =>
      match data.getLast? with
      | none => none
      | some lastRow =>
        let data1 := if lastRow.headD "" = "Balance" then data.dropLast else data
        let header1 := header.map renameCol
        let refs? : Option (List RefCell) :=
          if header1.contains "Reference" then
            mapOpt (fun r => refCellOfRaw (r.getD (colIdx "Reference" header1) "")) data1
          else some (data1.map (fun _ => RefCell.strVal "N/A"))
        match refs? with
        | none => none
        | some refs =>
          let monthCols := header1.filter isMonthCol
          if monthCols.isEmpty then none
          else
            some ((data1.zip refs).map (fun p =>
              { item := if header1.contains "Prepayment Item" then
                          p.1.getD (colIdx "Prepayment Item" header1) ""
                        else "Generic Item"
                reference := p.2
                amounts := monthCols.map (fun c =>
                  (c, (parseNumeric (p.1.getD (colIdx c header1) "")).getD 0)) }),
              monthCols)

/-- Python `int(s)` on a string: optional surrounding spaces, optional
sign, then at least one digit; anything else raises (`none`). -/
def pyIntOfString (s : String) : Option Int :=
  let cs := ((s.toList.dropWhile (· = ' ')).reverse.dropWhile (· = ' ')).reverse
  match cs with
  | '-' :: ds => if !ds.isEmpty && ds.all Char.isDigit then some (-(digitsVal ds : Int)) else none
  | '+' :: ds => if !ds.isEmpty && ds.all Char.isDigit then some (digitsVal ds : Int) else none
  | ds => if !ds.isEmpty && ds.all Char.isDigit then some (digitsVal ds : Int) else none

/-- Reference rendering of `generate_accounting_entries` (line 134):
`str(int(raw_reference)) if pd.notna(raw_reference) else 'N/A'`.  The
string `'N/A'` the loader stores for an absent column is not NA to pandas,
so it is passed to `int(...)`, which raises (`none`). -/
def refString : RefCell → Option String
  | .intVal n => some (toString n)
  | .NA => some "N/A"
  | .strVal s => (pyIntOfString s).map toString

/-- C-locale `strftime('%b')` month abbreviation. -/
def monthAbbrev : Nat → String
  | 1 => "Jan" | 2 => "Feb" | 3 => "Mar" | 4 => "Apr"
  | 5 => "May" | 6 => "Jun" | 7 => "Jul" | 8 => "Aug"
  | 9 => "Sep" | 10 => "Oct" | 11 => "Nov" | 12 => "Dec"
  | _ => ""

/-- Zero-padded two-digit rendering, as in `%d`, `%m` and `%y`. -/
def pad2 (n : Nat) : String := if n < 10 then "0" ++ toString n else toString n

/-- Gregorian leap-year rule. -/
def isLeap (y : Nat) : Bool := y % 4 = 0 && (y % 100 != 0 || y % 400 = 0)

/-- Day number of the last calendar day of a month, the effect of
`relativedelta(day=31)` (line 119). -/
def lastDay (y m : Nat) : Nat :=
  if m = 2 then (if isLeap y then 29 else 28)
  else if m = 4 ∨ m = 6 ∨ m = 9 ∨ m = 11 then 30
  else 31

/-- `target_dt.strftime('%b-%y')` (line 113). -/
def targetColName (y m : Nat) : String := monthAbbrev m ++ "-" ++ pad2 (y % 100)

/-- `accounting_entry_date.strftime('%d/%m/%Y')` (line 150). -/
def entryDate (y m : Nat) : String :=
  pad2 (lastDay y m) ++ "/" ++ pad2 m ++ "/" ++ toString y

/-- `datetime.strptime(target_month_str, '%Y-%m')` (line 110).  CPython's
`_strptime` compiles `%Y` to exactly four digits and `%m` to
`1[0-2]|0[1-9]|[1-9]` and requires the whole string to be consumed; the
`datetime` constructor additionally requires a year of at least 1. -/
def parseTargetPeriod (s : String) : Option (Nat × Nat) :=
  match s.toList with
  | a :: b :: c :: d :: '-' :: ms =>
    if [a, b, c, d].all Char.isDigit then
      let y := digitsVal [a, b, c, d]
      let m? : Option Nat :=
        match ms with
        | [m1] => if 49 ≤ m1.toNat && m1.toNat ≤ 57 then some (m1.toNat - 48) else none
        | [m1, m2] =>
          if m1 = '0' && 49 ≤ m2.toNat && m2.toNat ≤ 57 then some (m2.toNat - 48)
          else if m1 = '1' && 48 ≤ m2.toNat && m2.toNat ≤ 50 then some (10 + m2.toNat - 48)
          else none
        | _ => none
      match m? with
      | some m => if 1 ≤ y then some (y, m) else none
      | none => none
    else none
  | _ => none

/-- Python `round(x)` on a rational: round half to even. -/
def roundHalfEven (q : ℚ) : ℤ :=
  let f := ⌊q⌋
  let r := q - (f : ℚ)
  if r < 1/2 then f
  else if 1/2 < r then f + 1
  else if f % 2 = 0 then f else f + 1

/-- Python `round(x, 2)`. -/
def pyRound2 (q : ℚ) : ℚ := ((roundHalfEven (q * 100) : ℤ) : ℚ) / 100

/-- One generated accounting entry (the dict of lines 149–164). -/
structure PostingEntry where
  date : String
  description : String
  reference : String
  account : String
  amount : ℚ
deriving Repr, DecidableEq

/-- `row.get(target_month_col_name, 0)` (line 140). -/
def amountFor (colName : String) (r : ScheduleRecord) : ℚ :=
  (r.amounts.lookup colName).getD 0

/-- Loop body of `generate_accounting_entries` for one record (lines
128–164): render the reference (which can raise), then append a
debit/credit pair when the amount magnitude exceeds 0.005. -/
def recEntries (colName dateS : String) (r : ScheduleRecord) : Option (List PostingEntry) :=
  match refString r.reference with
  | none => none
  | some refS =>
    let amt := amountFor colName r
    if 1/200 < |amt| then
      let d := |pyRound2 amt|
      some [{ date := dateS
              description := "Prepayment amortisation for " ++ r.item
              reference := refS
              account := "EXP001"
              amount := d },
            { date := dateS
              description := "Prepayment amortisation for " ++ r.item
              reference := refS
              account := "PRE001"
              amount := -d }]
    else some []

/-- `generate_accounting_entries` (lines 91–165).  `some es` is a normal
return of the Python list; `none` is an uncaught exception escaping the
function (only the `strptime` call is inside a `try`). -/
def generate_accounting_entries (recs : List ScheduleRecord) (monthCols : List String)
    (target : String) : Option (List PostingEntry) :=
  match parseTargetPeriod target with
  | none => some []
  | some (y, m) =>
    if monthCols.contains (targetColName y m) then
      (mapOpt (recEntries (targetColName y m) (entryDate y m)) recs).map List.flatten
    else some []

/-! Helper lemmas. -/

theorem pySplit_ne_nil (sep : Char) (cs : List Char) : pySplit sep cs ≠ [] := by
  induction cs with
  | nil => simp [pySplit]
  | cons c cs ih =>
    simp only [pySplit]
    cases hs : pySplit sep cs with
    | nil => exact absurd hs ih
    | cons g gs => by_cases hc : c = sep <;> simp [hc]

theorem pySplit_singleton (sep : Char) :
    ∀ {cs g : List Char}, pySplit sep cs = [g] → cs = g := by
  intro cs
  induction cs with
  | nil =>
    intro g h
    simp only [pySplit, List.cons.injEq, and_true] at h
    exact h
  | cons c cs ih =>
    intro g h
    simp only [pySplit] at h
    cases hs : pySplit sep cs with
    | nil => exact absurd hs (pySplit_ne_nil sep cs)
    | cons g' gs' =>
      simp only [hs] at h
      by_cases hc : c = sep
      · simp only [if_pos hc] at h
        simp at h
      · simp only [if_neg hc] at h
        obtain ⟨h1, h2⟩ := List.cons.inj h
        subst h2
        rw [ih hs, h1]

theorem pySplit_pair (sep : Char) :
    ∀ {cs p0 p1 : List Char}, pySplit sep cs = [p0, p1] → cs = p0 ++ sep :: p1 := by
  intro cs
  induction cs with
  | nil => intro p0 p1 h; simp [pySplit] at h
  | cons c cs ih =>
    intro p0 p1 h
    simp only [pySplit] at h
    cases hs : pySplit sep cs with
    | nil => exact absurd hs (pySplit_ne_nil sep cs)
    | cons g' gs' =>
      simp only [hs] at h
      by_cases hc : c = sep
      · simp only [if_pos hc] at h
        obtain ⟨h1, h2⟩ := List.cons.inj h
        obtain ⟨h3, h4⟩ := List.cons.inj h2
        subst h4
        rw [pySplit_singleton sep hs, ← h1, ← h3, hc]
        rfl
      · simp only [if_neg hc] at h
        obtain ⟨h1, h2⟩ := List.cons.inj h
        subst h2
        rw [← h1, ih hs]
        rfl

theorem mapOpt_forall2 {α β : Type*} {f : α → Option β} :
    ∀ {xs : List α} {ys : List β}, mapOpt f xs = some ys →
      List.Forall₂ (fun x y => f x = some y) xs ys := by
  intro xs
  induction xs with
  | nil =>
    intro ys h
    simp only [mapOpt, Option.some.injEq] at h
    subst h
    exact List.Forall₂.nil
  | cons a as ih =>
    intro ys h
    simp only [mapOpt] at h
    cases hfa : f a with
    | none => simp only [hfa] at h; exact Option.noConfusion h
    | some b =>
      cases hm : mapOpt f as with
      | none => simp only [hfa, hm] at h; exact Option.noConfusion h
      | some bs =>
        simp only [hfa, hm, Option.some.injEq] at h
        subst h
        exact List.Forall₂.cons hfa (ih hm)

theorem mapOpt_length {α β : Type*} {f : α → Option β} {xs : List α} {ys : List β}
    (h : mapOpt f xs = some ys) : ys.length = xs.length :=
  (mapOpt_forall2 h).length_eq.symm

theorem specMonthCol_implies_isMonthCol :
    ∀ col : String, specMonthCol col = true → isMonthCol col = true := by
  intro col h
  simp only [specMonthCol, Bool.and_eq_true, decide_eq_true_eq] at h
  obtain ⟨⟨⟨⟨hlen, hl0⟩, ha0⟩, hl1⟩, hd1⟩ := h
  cases hp : pySplit '-' col.toList with
  | nil => exact absurd hp (pySplit_ne_nil _ _)
  | cons p0 rest =>
    cases rest with
    | nil => rw [hp] at hlen; simp at hlen
    | cons p1 rest2 =>
      cases rest2 with
      | cons x xs => rw [hp] at hlen; simp at hlen
      | nil =>
        have hcs : col.toList = p0 ++ '-' :: p1 := pySplit_pair '-' hp
        rw [hp] at hl0 ha0 hl1 hd1
        simp only [List.getD_cons_zero, List.getD_cons_succ] at hl0 ha0 hl1 hd1
        have h0 : p0.isEmpty = false := by cases p0 <;> simp_all
        have h1 : p1.isEmpty = false := by cases p1 <;> simp_all
        simp only [isMonthCol, hp, Bool.and_eq_true, decide_eq_true_eq,
          List.getD_cons_zero, List.getD_cons_succ]
        refine ⟨⟨⟨?_, ?_⟩, ?_⟩, ?_⟩
        · rw [hcs]; simp [hl0, hl1]
        · rw [hcs]; simp
        · simp [pyIsAlpha, h0, ha0]
        · simp [pyIsDigit, h1, hd1]

/-! Claim theorems. -/

/-- C1 counterexample: on the same one-record schedule whose only month
column is "Jan-24", a malformed target period ("2024/05") and a well-formed
period absent from the schedule ("2030-01") both return the very same
ordinary empty list — the malformed period does not produce a failure
outcome, so the two cases are not distinguishable by the caller. -/
theorem C1_cex_malformedPeriodIndistinguishable :
    generate_accounting_entries [⟨"Insurance", RefCell.intVal 1001, [("Jan-24", -100)]⟩]
      ["Jan-24"] "2024/05" = some [] ∧
    generate_accounting_entries [⟨"Insurance", RefCell.intVal 1001, [("Jan-24", -100)]⟩]
      ["Jan-24"] "2030-01" = some [] ∧
    generate_accounting_entries [⟨"Insurance", RefCell.intVal 1001, [("Jan-24", -100)]⟩]
      ["Jan-24"] "2024/05" =
      generate_accounting_entries [⟨"Insurance", RefCell.intVal 1001, [("Jan-24", -100)]⟩]
        ["Jan-24"] "2030-01" := by
  refine ⟨?_, ?_, ?_⟩ <;>
    simp +decide [generate_accounting_entries, parseTargetPeriod, targetColName,
      monthAbbrev, pad2, digitsVal]

/-- C1 amended: a malformed target period makes
`generate_accounting_entries` return the ordinary empty list (after only
printing a message), exactly as a well-formed period that is absent from
the schedule does; the two outcomes are the same value and are not
distinguishable by the caller. -/
theorem C1_amended_malformedPeriodEmptyList :
    ∀ (recs : List ScheduleRecord) (monthCols : List String) (target : String),
      (parseTargetPeriod target = none →
        generate_accounting_entries recs monthCols target = some []) ∧
      (∀ y m, parseTargetPeriod target = some (y, m) →
        monthCols.contains (targetColName y m) = false →
        generate_accounting_entries recs monthCols target = some []) := by
  intro recs monthCols target
  constructor
  · intro h
    simp [generate_accounting_entries, h]
  · intro y m h hc
    simp only [generate_accounting_entries, h, hc]
    simp

theorem C1_amended_witness :
    (parseTargetPeriod "2024/05" = none ∧
      generate_accounting_entries [] [] "2024/05" = some []) ∧
    (parseTargetPeriod "2030-01" = some (2030, 1) ∧
      (["Jan-24"] : List String).contains (targetColName 2030 1) = false ∧
      generate_accounting_entries [] ["Jan-24"] "2030-01" = some []) :=
  ⟨⟨by decide, (C1_amended_malformedPeriodEmptyList [] [] "2024/05").1 (by decide)⟩,
   ⟨by decide, by decide,
    (C1_amended_malformedPeriodEmptyList [] ["Jan-24"] "2030-01").2 2030 1
      (by decide) (by decide)⟩⟩

/-- C2 counterexample: the label "ab-123" is classified as a month column
by the loader even though it does not have 3 alphabetic characters before
the separator and 2 numeric characters after it, so the classification is
not an "if and only if" of the claimed shape. -/
theorem C2_cex_monthColNotIff :
    isMonthCol "ab-123" = true ∧ specMonthCol "ab-123" = false := by
  constructor <;> decide

/-- C2 amended: every label of the claimed shape (exactly 6 characters, a
single '-', 3 alphabetic before it, 2 numeric after it) is classified as a
month column, and "Total" and "ABC-2024" are never classified while
"Jan-24" and "Dec-99" are; but the code's rule is strictly more lenient
than the claimed "if and only if": it also accepts any 6-character label
whose segment before the first '-' is nonempty alphabetic and whose segment
after it (up to a possible second '-') is nonempty numeric, e.g. "ab-123". -/
theorem C2_amended_monthColClassification :
    (∀ col : String, specMonthCol col = true → isMonthCol col = true) ∧
    isMonthCol "Total" = false ∧ isMonthCol "ABC-2024" = false ∧
    isMonthCol "Jan-24" = true ∧ isMonthCol "Dec-99" = true ∧
    isMonthCol "ab-123" = true ∧ specMonthCol "ab-123" = false :=
  ⟨specMonthCol_implies_isMonthCol, by decide, by decide, by decide, by decide,
   by decide, by decide⟩

theorem C2_amended_witness :
    specMonthCol "Jan-24" = true ∧ isMonthCol "Jan-24" = true :=
  ⟨by decide, C2_amended_monthColClassification.1 "Jan-24" (by decide)⟩

theorem recEntries_spec (colName dateS : String) (r : ScheduleRecord) (p : List PostingEntry)
    (h : recEntries colName dateS r = some p) :
    (1/200 < |amountFor colName r| →
      ∃ d c, p = [d, c] ∧ d.amount + c.amount = 0 ∧
        d.account = "EXP001" ∧ c.account = "PRE001" ∧
        d.date = c.date ∧ d.description = c.description ∧ d.reference = c.reference) ∧
    (|amountFor colName r| ≤ 1/200 → p = []) := by
  cases hr : refString r.reference with
  | none => simp only [recEntries, hr] at h; exact Option.noConfusion h
  | some refS =>
    simp only [recEntries, hr] at h
    by_cases hc : 1/200 < |amountFor colName r|
    · rw [if_pos hc] at h
      injection h with h'
      subst h'
      constructor
      · intro _
        refine ⟨_, _, rfl, ?_, rfl, rfl, rfl, rfl, rfl⟩
        exact add_neg_cancel _
      · intro hle
        exact absurd hc (not_lt.2 hle)
    · rw [if_neg hc] at h
      injection h with h'
      subst h'
      exact ⟨fun hlt => absurd hlt hc, fun _ => rfl⟩

/-- C3: whenever generation returns normally for a parsed target period
whose column is in the schedule, the result is the in-order concatenation
of one block per record, and every record whose amortization amount for the
target month is non-negligible contributes exactly the block `[debit,
credit]` — debit first — whose amounts sum to exactly zero, whose accounts
are the fixed pair "EXP001" ≠ "PRE001", and whose date, description and
reference coincide. -/
theorem C3_balancedPairsPerRecord :
    ∀ (recs : List ScheduleRecord) (monthCols : List String) (target : String)
      (y m : Nat) (entries : List PostingEntry),
      parseTargetPeriod target = some (y, m) →
      monthCols.contains (targetColName y m) = true →
      generate_accounting_entries recs monthCols target = some entries →
      ∃ pieces : List (List PostingEntry),
        entries = pieces.flatten ∧
        List.Forall₂ (fun r p =>
          (1/200 < |amountFor (targetColName y m) r| →
            ∃ d c, p = [d, c] ∧ d.amount + c.amount = 0 ∧
              d.account = "EXP001" ∧ c.account = "PRE001" ∧
              d.date = c.date ∧ d.description = c.description ∧
              d.reference = c.reference) ∧
          (|amountFor (targetColName y m) r| ≤ 1/200 → p = [])) recs pieces := by
  intro recs monthCols target y m entries hp hc hg
  simp only [generate_accounting_entries, hp, hc, if_true] at hg
  cases ho : mapOpt (recEntries (targetColName y m) (entryDate y m)) recs with
  | none => rw [ho] at hg; exact Option.noConfusion hg
  | some ys =>
    rw [ho] at hg
    simp only [Option.map_some', Option.some.injEq] at hg
    refine ⟨ys, hg.symm, ?_⟩
    exact (mapOpt_forall2 ho).imp (fun r p hrp => recEntries_spec _ _ _ _ hrp)

theorem C3_witness :
    ∃ pieces : List (List PostingEntry),
      [({ date := "31/01/2024", description := "Prepayment amortisation for Insurance",
          reference := "1001", account := "EXP001", amount := 100 } : PostingEntry),
       { date := "31/01/2024", description := "Prepayment amortisation for Insurance",
         reference := "1001", account := "PRE001", amount := -100 }] = pieces.flatten ∧
      List.Forall₂ (fun r p =>
        (1/200 < |amountFor (targetColName 2024 1) r| →
          ∃ d c, p = [d, c] ∧ d.amount + c.amount = 0 ∧
            d.account = "EXP001" ∧ c.account = "PRE001" ∧
            d.date = c.date ∧ d.description = c.description ∧
            d.reference = c.reference) ∧
        (|amountFor (targetColName 2024 1) r| ≤ 1/200 → p = []))
        [⟨"Insurance", RefCell.intVal 1001, [("Jan-24", -100)]⟩] pieces :=
  C3_balancedPairsPerRecord [⟨"Insurance", RefCell.intVal 1001, [("Jan-24", -100)]⟩]
    ["Jan-24"] "2024-01" 2024 1 _ (by decide) (by decide)
    (by
      have h1 : pyRound2 (-100 : ℚ) = -100 := by norm_num [pyRound2, roundHalfEven]
      have h2 : ((200:ℚ))⁻¹ < 100 := by norm_num
      have h3 : |(-100 : ℚ)| = 100 := by norm_num
      have t1 : toString (24:Nat) = "24" := by decide
      have t2 : toString (31:Nat) = "31" := by decide
      have t3 : toString (1:Nat) = "1" := by decide
      have t4 : toString (2024:Nat) = "2024" := by decide
      have t5 : toString (1001:Int) = "1001" := by decide
      simp +decide [generate_accounting_entries, parseTargetPeriod, targetColName, monthAbbrev,
        pad2, entryDate, lastDay, isLeap, mapOpt, recEntries, refString, amountFor, digitsVal,
        List.lookup, h1, h2, h3, t1, t2, t3, t4, t5])

/-- C4: for any record whose reference renders without fault, generation
for a record produces no postings when the amortization amount's magnitude
is at or below the 0.005 threshold, and otherwise produces the debit/credit
pair whose debit amount is the absolute value of the amount rounded to two
decimal places. -/
theorem C4_thresholdSuppression :
    ∀ (colName dateS : String) (r : ScheduleRecord) (refS : String),
      refString r.reference = some refS →
      (|amountFor colName r| ≤ 1/200 → recEntries colName dateS r = some []) ∧
      (1/200 < |amountFor colName r| →
        recEntries colName dateS r =
          some [{ date := dateS, description := "Prepayment amortisation for " ++ r.item,
                  reference := refS, account := "EXP001",
                  amount := |pyRound2 (amountFor colName r)| },
                { date := dateS, description := "Prepayment amortisation for " ++ r.item,
                  reference := refS, account := "PRE001",
                  amount := -|pyRound2 (amountFor colName r)| }]) := by
  intro colName dateS r refS h
  constructor
  · intro hle
    simp only [recEntries, h, if_neg (not_lt.2 hle)]
  · intro hlt
    simp only [recEntries, h, if_pos hlt]

theorem C4_witness :
    (|amountFor "Jan-24" ⟨"Item A", RefCell.NA, [("Jan-24", 3/1000)]⟩| ≤ 1/200 ∧
      recEntries "Jan-24" "31/05/2024" ⟨"Item A", RefCell.NA, [("Jan-24", 3/1000)]⟩ = some []) ∧
    (1/200 < |amountFor "Jan-24" ⟨"Item B", RefCell.NA, [("Jan-24", 6/1000)]⟩| ∧
      recEntries "Jan-24" "31/05/2024" ⟨"Item B", RefCell.NA, [("Jan-24", 6/1000)]⟩ =
        some [⟨"31/05/2024", "Prepayment amortisation for Item B", "N/A", "EXP001", 1/100⟩,
              ⟨"31/05/2024", "Prepayment amortisation for Item B", "N/A", "PRE001", -(1/100)⟩]) := by
  have ha : amountFor "Jan-24" ⟨"Item A", RefCell.NA, [("Jan-24", 3/1000)]⟩ = 3/1000 := by
    simp +decide [amountFor, List.lookup]
  have hb : amountFor "Jan-24" ⟨"Item B", RefCell.NA, [("Jan-24", 6/1000)]⟩ = 6/1000 := by
    simp +decide [amountFor, List.lookup]
  have haa : |(3:ℚ)/1000| = 3/1000 := abs_of_nonneg (by norm_num)
  have hbb : |(6:ℚ)/1000| = 6/1000 := abs_of_nonneg (by norm_num)
  have hle : |amountFor "Jan-24" ⟨"Item A", RefCell.NA, [("Jan-24", 3/1000)]⟩| ≤ 1/200 := by
    rw [ha, haa]; norm_num
  have hlt : 1/200 < |amountFor "Jan-24" ⟨"Item B", RefCell.NA, [("Jan-24", 6/1000)]⟩| := by
    rw [hb, hbb]; norm_num
  refine ⟨⟨hle,
    (C4_thresholdSuppression "Jan-24" "31/05/2024"
      ⟨"Item A", RefCell.NA, [("Jan-24", 3/1000)]⟩ "N/A" rfl).1 hle⟩,
    ⟨hlt, ?_⟩⟩
  rw [(C4_thresholdSuppression "Jan-24" "31/05/2024"
    ⟨"Item B", RefCell.NA, [("Jan-24", 6/1000)]⟩ "N/A" rfl).2 hlt]
  rw [hb]
  have hr : pyRound2 ((6:ℚ)/1000) = 1/100 := by norm_num [pyRound2, roundHalfEven]
  have habs : |(1:ℚ)/100| = 1/100 := abs_of_nonneg (by norm_num)
  rw [hr]
  simp +decide [habs]

/-- C5: reference coercion end to end — any cell that fails numeric
interpretation (such as "N/A" or a blank) becomes the explicit missing
marker and is rendered "N/A"; the numeric cell "46248" is stored at load
time as the true integer 46248 and rendered in postings as the plain
integer string "46248" with no decimal point. -/
theorem C5_referenceCoercion :
    (∀ s : String, parseNumeric s = none → refCellOfRaw s = some RefCell.NA) ∧
    parseNumeric "N/A" = none ∧ parseNumeric "" = none ∧
    refString RefCell.NA = some "N/A" ∧
    refCellOfRaw "46248" = some (RefCell.intVal 46248) ∧
    refString (RefCell.intVal 46248) = some "46248" ∧
    load_prepayment_schedule
      (Source.table [["x"], ["y"], ["Items", "Invoice number", "Jan-24"],
        ["A", "46248", "-5.0"]]) =
      some ([⟨"A", RefCell.intVal 46248, [("Jan-24", -5)]⟩], ["Jan-24"]) ∧
    generate_accounting_entries [⟨"A", RefCell.intVal 46248, [("Jan-24", -5)]⟩]
      ["Jan-24"] "2024-01" =
      some [⟨"31/01/2024", "Prepayment amortisation for A", "46248", "EXP001", 5⟩,
            ⟨"31/01/2024", "Prepayment amortisation for A", "46248", "PRE001", -5⟩] := by
  refine ⟨fun s h => by simp [refCellOfRaw, h], ?_, ?_, rfl, ?_, by decide, ?_, ?_⟩
  · simp +decide [parseNumeric, parseUnsigned]
  · simp +decide [parseNumeric, parseUnsigned]
  · simp +decide [refCellOfRaw, parseNumeric, parseUnsigned, digitsVal]
  · have hr : refCellOfRaw "46248" = some (RefCell.intVal 46248) := by
      simp +decide [refCellOfRaw, parseNumeric, parseUnsigned, digitsVal]
    have hp : parseNumeric "-5.0" = some (-5) := by
      simp +decide [parseNumeric, parseUnsigned, digitsVal]
    simp +decide [load_prepayment_schedule, renameCol, isMonthCol, pySplit, pyIsAlpha,
      pyIsDigit, mapOpt, colIdx, hr, hp]
  · have h1 : pyRound2 (-5 : ℚ) = -5 := by norm_num [pyRound2, roundHalfEven]
    have h2 : ((200:ℚ))⁻¹ < 5 := by norm_num
    have h3 : |(-5 : ℚ)| = 5 := by norm_num
    have t1 : toString (24:Nat) = "24" := by decide
    have t2 : toString (31:Nat) = "31" := by decide
    have t3 : toString (1:Nat) = "1" := by decide
    have t4 : toString (2024:Nat) = "2024" := by decide
    have t5 : toString (46248:Int) = "46248" := by decide
    simp +decide [generate_accounting_entries, parseTargetPeriod, targetColName, monthAbbrev,
      pad2, entryDate, lastDay, isLeap, mapOpt, recEntries, refString, amountFor, digitsVal,
      List.lookup, h1, h2, h3, t1, t2, t3, t4, t5]

theorem C5_witness :
    parseNumeric "N/A" = none ∧ refCellOfRaw "N/A" = some RefCell.NA :=
  ⟨by simp +decide [parseNumeric, parseUnsigned],
   C5_referenceCoercion.1 "N/A" (by simp +decide [parseNumeric, parseUnsigned])⟩

/-- C6 counterexample: three loader failures of different categories — the
source file missing (FileNotFoundError), the source yielding no table
(EmptyDataError), and a table with zero month columns (the ValueError /
DataFormatError path) — all return the identical untagged value `(None,
None)` (here `none`), so the caller cannot branch on the failure category
from the returned value. -/
theorem C6_cex_untaggedFailures :
    load_prepayment_schedule Source.missing = none ∧
    load_prepayment_schedule (Source.table []) = none ∧
    load_prepayment_schedule (Source.table [["h1"], ["h2"], ["Items"], ["x"]]) = none := by
  refine ⟨rfl, by simp [load_prepayment_schedule], ?_⟩
  simp +decide [load_prepayment_schedule, renameCol, isMonthCol, pySplit, pyIsAlpha,
    pyIsDigit, mapOpt, refCellOfRaw, parseNumeric, parseUnsigned]

/-- C6 amended: every loader failure — missing source, empty source, and
zero month columns detected — returns the same untagged sentinel (`None,
None`, here `none`); the failure categories are distinguished only in
printed messages, not in the value returned, so callers can detect failure
but not its category without inspecting output text. -/
theorem C6_amended_uniformFailureSentinel :
    load_prepayment_schedule Source.missing = load_prepayment_schedule (Source.table []) ∧
    load_prepayment_schedule (Source.table []) =
      load_prepayment_schedule (Source.table [["h1"], ["h2"], ["Items"], ["x"]]) ∧
    load_prepayment_schedule Source.missing = none := by
  have h2 : load_prepayment_schedule (Source.table []) = none := by
    simp [load_prepayment_schedule]
  have h3 : load_prepayment_schedule (Source.table [["h1"], ["h2"], ["Items"], ["x"]]) = none := by
    simp +decide [load_prepayment_schedule, renameCol, isMonthCol, pySplit, pyIsAlpha,
      pyIsDigit, mapOpt, refCellOfRaw, parseNumeric, parseUnsigned]
  exact ⟨by rw [h2]; rfl, by rw [h2, h3], rfl⟩

/-- C9 (code bug evidence): when the source has no reference column, the
loader stores the literal string 'N/A' in the Reference field; that string
is not NA to pandas, so generation calls `int('N/A')`, which raises an
uncaught ValueError (modelled as `none`) instead of completing normally
with the "N/A" marker as spec and code comments intend. -/
theorem C9_bug_missingReferenceColumnFault :
    load_prepayment_schedule
      (Source.table [["x"], ["y"], ["Items", "Jan-24"], ["Insurance", "-100.0"]]) =
      some ([⟨"Insurance", RefCell.strVal "N/A", [("Jan-24", -100)]⟩], ["Jan-24"]) ∧
    refString (RefCell.strVal "N/A") = none ∧
    generate_accounting_entries [⟨"Insurance", RefCell.strVal "N/A", [("Jan-24", -100)]⟩]
      ["Jan-24"] "2024-01" = none := by
  have hrs : refString (RefCell.strVal "N/A") = none := by
    simp +decide [refString, pyIntOfString]
  refine ⟨?_, hrs, ?_⟩
  · have hp : parseNumeric "-100.0" = some (-100) := by
      simp +decide [parseNumeric, parseUnsigned, digitsVal]
    simp +decide [load_prepayment_schedule, renameCol, isMonthCol, pySplit, pyIsAlpha,
      pyIsDigit, mapOpt, colIdx, hp]
  · simp +decide [generate_accounting_entries, parseTargetPeriod, targetColName, monthAbbrev,
      pad2, digitsVal, mapOpt, recEntries, hrs]

/-- C10: a reference cell that parses as a number with a fractional part
("462.5") makes the Int64 cast raise, and the whole load returns the
failure sentinel — no records at all — whereas the same table without that
row loads successfully. -/
theorem C10_fractionalReferenceAbortsLoad :
    load_prepayment_schedule
      (Source.table [["x"], ["y"], ["Items", "Invoice number", "Jan-24"],
        ["A", "46248", "-5.0"], ["B", "462.5", "-6.0"]]) = none ∧
    load_prepayment_schedule
      (Source.table [["x"], ["y"], ["Items", "Invoice number", "Jan-24"],
        ["A", "46248", "-5.0"]]) =
      some ([⟨"A", RefCell.intVal 46248, [("Jan-24", -5)]⟩], ["Jan-24"]) := by
  have hr : refCellOfRaw "46248" = some (RefCell.intVal 46248) := by
    simp +decide [refCellOfRaw, parseNumeric, parseUnsigned, digitsVal]
  have hb : refCellOfRaw "462.5" = none := by
    simp +decide [refCellOfRaw, parseNumeric, parseUnsigned, digitsVal]
    norm_num
  have hp : parseNumeric "-5.0" = some (-5) := by
    simp +decide [parseNumeric, parseUnsigned, digitsVal]
  constructor
  · simp +decide [load_prepayment_schedule, renameCol, isMonthCol, pySplit, pyIsAlpha,
      pyIsDigit, mapOpt, colIdx, hr, hb]
  · simp +decide [load_prepayment_schedule, renameCol, isMonthCol, pySplit, pyIsAlpha,
      pyIsDigit, mapOpt, colIdx, hr, hp]

theorem recEntries_dates (colName dateS : String) (r : ScheduleRecord) (p : List PostingEntry)
    (h : recEntries colName dateS r = some p) : ∀ e ∈ p, e.date = dateS := by
  intro e he
  cases hr : refString r.reference with
  | none => simp only [recEntries, hr] at h; exact Option.noConfusion h
  | some refS =>
    simp only [recEntries, hr] at h
    by_cases hc : 1/200 < |amountFor colName r|
    · rw [if_pos hc] at h
      injection h with h'
      subst h'
      simp only [List.mem_cons, List.not_mem_nil, or_false] at he
      rcases he with rfl | rfl <;> rfl
    · rw [if_neg hc] at h
      injection h with h'
      subst h'
      simp at he

theorem mapOpt_recEntries_dates (colName dateS : String) :
    ∀ {recs : List ScheduleRecord} {ys : List (List PostingEntry)},
      mapOpt (recEntries colName dateS) recs = some ys →
      ∀ e ∈ ys.flatten, e.date = dateS := by
  intro recs
  induction recs with
  | nil =>
    intro ys h e he
    simp only [mapOpt, Option.some.injEq] at h
    subst h
    simp at he
  | cons r rs ih =>
    intro ys h e he
    simp only [mapOpt] at h
    cases hfa : recEntries colName dateS r with
    | none => simp only [hfa] at h; exact Option.noConfusion h
    | some p =>
      cases hm : mapOpt (recEntries colName dateS) rs with
      | none => simp only [hfa, hm] at h; exact Option.noConfusion h
      | some ps =>
        simp only [hfa, hm, Option.some.injEq] at h
        subst h
        simp only [List.flatten_cons, List.mem_append] at he
        cases he with
        | inl hin => exact recEntries_dates colName dateS r p hfa e hin
        | inr hin => exact ih hm e hin

/-- C8: for every well-formed target period, every posting that a normal
generation run returns carries as its date the last calendar day of the
target month rendered as zero-padded day/month/year; in particular the
date for 2024-01 is "31/01/2024", and the last-day computation follows the
Gregorian calendar (29 February in 2024 and 2000, 28 in 2023 and 1900). -/
theorem C8_lastDayDate :
    (∀ (recs : List ScheduleRecord) (monthCols : List String) (target : String)
      (y m : Nat) (entries : List PostingEntry),
      parseTargetPeriod target = some (y, m) →
      generate_accounting_entries recs monthCols target = some entries →
      ∀ e ∈ entries, e.date = entryDate y m) ∧
    entryDate 2024 1 = "31/01/2024" ∧ entryDate 2024 4 = "30/04/2024" ∧
    lastDay 2024 2 = 29 ∧ lastDay 2023 2 = 28 ∧ lastDay 1900 2 = 28 ∧ lastDay 2000 2 = 29 := by
  refine ⟨?_, by decide, by decide, by decide, by decide, by decide, by decide⟩
  intro recs monthCols target y m entries hp hg e he
  simp only [generate_accounting_entries, hp] at hg
  cases hcc : monthCols.contains (targetColName y m) with
  | false =>
    simp only [hcc, Bool.false_eq_true, if_false] at hg
    injection hg with h'
    subst h'
    simp at he
  | true =>
    simp only [hcc, if_true] at hg
    cases ho : mapOpt (recEntries (targetColName y m) (entryDate y m)) recs with
    | none => rw [ho] at hg; exact Option.noConfusion hg
    | some ys =>
      rw [ho] at hg
      simp only [Option.map_some', Option.some.injEq] at hg
      subst hg
      exact mapOpt_recEntries_dates (targetColName y m) (entryDate y m) ho e he

theorem C8_witness :
    parseTargetPeriod "2024-01" = some (2024, 1) ∧
    ∀ e ∈ ([⟨"31/01/2024", "Prepayment amortisation for Insurance", "1001", "EXP001", 100⟩,
            ⟨"31/01/2024", "Prepayment amortisation for Insurance", "1001", "PRE001", -100⟩] :
        List PostingEntry),
      e.date = entryDate 2024 1 :=
  ⟨by decide,
   C8_lastDayDate.1 [⟨"Insurance", RefCell.intVal 1001, [("Jan-24", -100)]⟩]
    ["Jan-24"] "2024-01" 2024 1 _ (by decide)
    (by
      have h1 : pyRound2 (-100 : ℚ) = -100 := by norm_num [pyRound2, roundHalfEven]
      have h2 : ((200:ℚ))⁻¹ < 100 := by norm_num
      have h3 : |(-100 : ℚ)| = 100 := by norm_num
      have t1 : toString (24:Nat) = "24" := by decide
      have t2 : toString (31:Nat) = "31" := by decide
      have t3 : toString (1:Nat) = "1" := by decide
      have t4 : toString (2024:Nat) = "2024" := by decide
      have t5 : toString (1001:Int) = "1001" := by decide
      simp +decide [generate_accounting_entries, parseTargetPeriod, targetColName, monthAbbrev,
        pad2, entryDate, lastDay, isLeap, mapOpt, recEntries, refString, amountFor, digitsVal,
        List.lookup, h1, h2, h3, t1, t2, t3, t4, t5])⟩

/-- C7: for any table of 2 leading junk rows, a header row, N item rows and
a trailing row whose first cell literally equals "Balance", a successful
load yields exactly N records: the junk rows are discarded before the
header is interpreted and the Balance summary row is dropped. -/
theorem C7_headerSkipSummaryDrop :
    ∀ (j1 j2 hd : List String) (itemRows : List (List String)) (bal : List String)
      (recs : List ScheduleRecord) (cols : List String),
      bal.headD "" = "Balance" →
      load_prepayment_schedule (Source.table (j1 :: j2 :: hd :: (itemRows ++ [bal]))) =
        some (recs, cols) →
      recs.length = itemRows.length := by
  intro j1 j2 hd itemRows bal recs cols hbal h
  have hlast : (itemRows ++ [bal]).getLast? = some bal := by
    rw [List.getLast?_concat]
  have hdl : (itemRows ++ [bal]).dropLast = itemRows := by
    rw [List.dropLast_concat]
  simp only [load_prepayment_schedule, List.drop_succ_cons, List.drop_zero, hlast, hbal,
    if_true, hdl] at h
  cases hrefs : (if (hd.map renameCol).contains "Reference" = true then
        mapOpt (fun r => refCellOfRaw (r.getD (colIdx "Reference" (hd.map renameCol)) "")) itemRows
      else some (itemRows.map (fun _ => RefCell.strVal "N/A"))) with
  | none => simp only [hrefs] at h; exact Option.noConfusion h
  | some refs =>
    simp only [hrefs] at h
    have hlen : refs.length = itemRows.length := by
      by_cases hc : (hd.map renameCol).contains "Reference" = true
      · rw [if_pos hc] at hrefs
        exact mapOpt_length hrefs
      · rw [if_neg hc] at hrefs
        injection hrefs with h'
        rw [← h', List.length_map]
    by_cases hme : (List.filter isMonthCol (hd.map renameCol)).isEmpty = true
    · rw [if_pos hme] at h
      exact Option.noConfusion h
    · rw [if_neg hme] at h
      injection h with h'
      injection h' with h1 h2
      rw [← h1, List.length_map, List.length_zip, hlen, Nat.min_self]

theorem C7_witness :
    (["Balance", "3.0"] : List String).headD "" = "Balance" ∧
    ([⟨"A", RefCell.strVal "N/A", [("Jan-24", -1)]⟩,
      ⟨"B", RefCell.strVal "N/A", [("Jan-24", -2)]⟩] : List ScheduleRecord).length =
      ([["A", "-1.0"], ["B", "-2.0"]] : List (List String)).length :=
  ⟨by decide,
   C7_headerSkipSummaryDrop ["junk"] ["junk2"] ["Items", "Jan-24"]
    [["A", "-1.0"], ["B", "-2.0"]] ["Balance", "3.0"]
    [⟨"A", RefCell.strVal "N/A", [("Jan-24", -1)]⟩,
     ⟨"B", RefCell.strVal "N/A", [("Jan-24", -2)]⟩] ["Jan-24"] (by decide)
    (by
      have hp1 : parseNumeric "-1.0" = some (-1) := by
        simp +decide [parseNumeric, parseUnsigned, digitsVal]
      have hp2 : parseNumeric "-2.0" = some (-2) := by
        simp +decide [parseNumeric, parseUnsigned, digitsVal]
      simp +decide [load_prepayment_schedule, renameCol, isMonthCol, pySplit, pyIsAlpha,
        pyIsDigit, mapOpt, colIdx, hp1, hp2])⟩
